import Mathlib

/-!
Verification of the `fold` frontend (document search / reading UI) against its
design specification.  The TypeScript sources under `src/frontend` are embedded
shallowly: pure request-building and rendering logic becomes Lean functions,
HTTP responses become explicit records, fallible paths return `Except`.
Backend behaviour that is not part of the frontend tree (the hybrid query
engine, the document store) is modelled from the specification where a claim
needs it; such definitions carry a doc comment starting `Modelled from the
spec:`.
-/

namespace Fold

/-- A JavaScript value as discriminated by `typeof` in `toURLSearchParams`
(src/frontend/components/post/fetch-post-list.ts).  String, number and boolean
are the primitive cases of the `switch`; `arr` is the `Array.isArray` branch of
the `object` case; `undef` is `undefined` (reached e.g. when `offset` is not
given), which matches no case of the `switch` and is skipped. -/
inductive JSValue where
  | str (s : String)
  | num (n : Int)
  | bool (b : Bool)
  | arr (xs : List String)
  | undef
deriving Repr, DecidableEq

/-- The `[key, value]` pairs contributed by one entry of the record in
`toURLSearchParams`: a primitive is pushed only when truthy
(`value && results.push([key, value.toString()])`), an array contributes one
pair per element (`results.push(...value.map((x) => [key, x]))`), and any
other value is skipped. -/
def entryPairs : String × JSValue → List (String × String)
  | (key, JSValue.str s) => if s = "" then [] else [(key, s)]
  | (key, JSValue.num n) => if n = 0 then [] else [(key, toString n)]
  | (key, JSValue.bool b) => if b then [(key, "true")] else []
  | (key, JSValue.arr xs) => xs.map (fun x => (key, x))
  | (_, JSValue.undef) => []

/-- `toURLSearchParams` (src/frontend/components/post/fetch-post-list.ts,
lines 4-24): the `for`-loop over `Object.entries(params)` accumulating the
pushed `[key, value]` pairs in order. -/
def toURLSearchParams (params : List (String × JSValue)) : List (String × String) :=
  params.foldl (fun results kv => results ++ entryPairs kv) []

/-- The search-filter state `SearchParams` of the search provider
(src/frontend/components/search-provider.tsx). -/
structure SearchParams where
  author : String
  bookmarked : Bool
  category : List String
  desc : Bool
  text : String
  title : String
  unread : Bool
  vector_search : String
  vector_search_document : String
deriving Repr, DecidableEq

/-- The record `{...searchParams, offset: offset, count: count}` passed to
`toURLSearchParams` by `fetchPostList` (fetch-post-list.ts, lines 32-36), with
entries in the insertion order of the search-params object.  A first-page
request passes `offset === undefined`. -/
def fetchPostListParams (searchParams : SearchParams) (offset : Option Int)
    (count : Int) : List (String × JSValue) :=
  [ ("author", JSValue.str searchParams.author)
  , ("bookmarked", JSValue.bool searchParams.bookmarked)
  , ("category", JSValue.arr searchParams.category)
  , ("desc", JSValue.bool searchParams.desc)
  , ("text", JSValue.str searchParams.text)
  , ("title", JSValue.str searchParams.title)
  , ("unread", JSValue.bool searchParams.unread)
  , ("vector_search", JSValue.str searchParams.vector_search)
  , ("vector_search_document", JSValue.str searchParams.vector_search_document)
  , ("offset", match offset with | none => JSValue.undef | some n => JSValue.num n)
  , ("count", JSValue.num count) ]

/-- The query string (as key/value pairs) of the `GET documents` request built
by `fetchPostList`. -/
def fetchPostListQuery (searchParams : SearchParams) (offset : Option Int)
    (count : Int) : List (String × String) :=
  toURLSearchParams (fetchPostListParams searchParams offset count)

/-- A link edge as serialized on the wire (`PostLink` in the frontend types). -/
structure PostLink where
  document_id : String
  url : String
deriving Repr, DecidableEq

/-- The `Post` wire shape of the frontend types (document id, category tag,
timestamps, flags, optional score, link edges).  `metadata` is the
category-specific key/value payload; `score`, when present, is the rescaled
similarity. -/
structure Post where
  category : String
  created_at : String
  document_id : String
  metadata : List (String × String)
  score : Option ℚ
  url : String
  is_read : Bool
  is_bookmarked : Bool
  links : List PostLink
  backlinks : List PostLink
deriving Repr, DecidableEq

/-- The `PostPage` wire shape: one page of documents plus an optional cursor
(`next_cursor?: number`). -/
structure PostPage where
  data : List Post
  next_cursor : Option Nat
deriving Repr, DecidableEq

/-- Modelled from the spec: the backend hybrid query engine (not part of the
frontend sources) answers `GET documents` for a fixed filter+ranking
configuration with the slice `[offset, offset+count)` of the filtered, ranked
candidate list, and `next_cursor = offset + count` when more candidates
remain, absent otherwise. -/
def queryPage (docs : List Post) (offset count : Nat) : PostPage :=
  { data := (docs.drop offset).take count
  , next_cursor :=
      if offset + count < docs.length then some (offset + count) else none }

/-- The page-fetch loop of `PostList` (the `useInfiniteQuery` of
src/frontend/components/post/render-post part, lines 56-60, driving
`fetchPostList`): the first request is made with page parameter `none`
(`offset === undefined`, which the backend — modelled from the spec — treats
as offset `0`), each following request uses the previous response's
`next_cursor` (`getNextPageParam: (lastPost) => lastPost.next_cursor`), and
fetching stops when a response carries no `next_cursor`.  `fuel` bounds the
number of round trips. -/
def clientPages (docs : List Post) (count : Nat) :
    Nat → Option Nat → List (List Post)
  | 0, _ => []
  | fuel + 1, pageParam =>
    let page := queryPage docs (pageParam.getD 0) count
    match page.next_cursor with
    | none => [page.data]
    | some cursor => page.data :: clientPages docs count fuel (some cursor)

/-- The combined post list rendered by `PostList`:
`data.pages.flatMap((x) => x.data)` over the pages fetched by the loop. -/
def clientAllPosts (docs : List Post) (count fuel : Nat) : List Post :=
  (clientPages docs count fuel none).flatten

/-- An HTTP response as observed by the frontend fetch helpers: the `ok` flag
and `status` code, the text body read by `response.text()` on failure, and the
parsed JSON value returned by `response.json()` on success. -/
structure Response (α : Type) where
  ok : Bool
  status : Nat
  body : String
  value : α

/-- The error message thrown on a non-ok response, identical in
`fetchPostList`, `fetchPost` and `requestAction`:
`HTTP error: Status: ${response.status}, Message: ${errorMessage}`. -/
def errorMessage (status : Nat) (body : String) : String :=
  "HTTP error: Status: " ++ toString status ++ ", Message: " ++ body

/-- The shared response handling of the frontend fetch helpers: if
`!response.ok`, throw an `Error` built from the status and the body text;
otherwise resolve with the parsed JSON value. -/
def handleResponse {α : Type} (resp : Response α) : Except String α :=
  if resp.ok then Except.ok resp.value
  else Except.error (errorMessage resp.status resp.body)

/-- The `catch` block shared by the fetch helpers: a caught error is logged
and re-thrown (`throw error`), never swallowed. -/
def rethrow {α : Type} (r : Except String α) : Except String α :=
  match r with
  | Except.error e => Except.error e
  | Except.ok v => Except.ok v

/-- The `{data: Post[]}` wire shape returned by `GET document?id=...`. -/
structure DocumentResult where
  data : List Post
deriving Repr, DecidableEq

/-- The `{success: boolean}` wire shape returned by the action endpoints. -/
structure ActionResult where
  success : Bool
deriving Repr, DecidableEq

/-- The result of `fetchPostList` (fetch-post-list.ts, lines 41-57) as a
function of the HTTP response: non-ok status throws, ok resolves with the
parsed `PostPage`, and the `catch` re-throws. -/
def fetchPostList_result (resp : Response PostPage) : Except String PostPage :=
  rethrow (handleResponse resp)

/-- The result of `fetchPost` (fetch-post.tsx) as a function of the HTTP
response. -/
def fetchPost_result (resp : Response DocumentResult) :
    Except String DocumentResult :=
  rethrow (handleResponse resp)

/-- The result of `requestAction` (src/frontend/components/post/utils.ts,
lines 40-68) as a function of the HTTP response. -/
def requestAction_result (resp : Response ActionResult) :
    Except String ActionResult :=
  rethrow (handleResponse resp)

/-- An HTTP request issued by `requestAction`: the target URL, the method, and
the JSON body (`JSON.stringify(params)`). -/
structure HttpRequest where
  url : String
  method : String
  body : List (String × JSValue)
deriving Repr, DecidableEq

/-- The request built by `requestAction(url, method, params)` (utils.ts,
lines 40-53). -/
def requestActionRequest (url method : String)
    (params : List (String × JSValue)) : HttpRequest :=
  { url := url, method := method, body := params }

/-- The request issued by clicking the read `ActionButton` of `Actions`
(utils.ts, lines 135-177): `requestAction` curried with
`new URL("/api/read", window.location.origin)` and `"POST"`, applied to
`{id: documentId, state: !isEnabled}` where `isEnabled` mirrors the displayed
`isRead` flag. -/
def readClickRequest (origin documentId : String) (isEnabled : Bool) :
    HttpRequest :=
  requestActionRequest (origin ++ "/api/read") "POST"
    [("id", JSValue.str documentId), ("state", JSValue.bool (!isEnabled))]

/-- The request issued by clicking the bookmark `ActionButton` of `Actions`
(utils.ts, lines 178-198), analogous to the read button with
`new URL("/api/bookmark", window.location.origin)`. -/
def bookmarkClickRequest (origin documentId : String) (isEnabled : Bool) :
    HttpRequest :=
  requestActionRequest (origin ++ "/api/bookmark") "POST"
    [("id", JSValue.str documentId), ("state", JSValue.bool (!isEnabled))]

/-- The request issued by confirming deletion in `DeleteButton` (utils.ts,
lines 239-252): `requestAction(new URL("/api/document", origin), "DELETE",
{id: documentId})`. -/
def deleteClickRequest (origin documentId : String) : HttpRequest :=
  requestActionRequest (origin ++ "/api/document") "DELETE"
    [("id", JSValue.str documentId)]

/-- Modelled from the spec: the backend handler of `POST read {id, state}`
(not part of the frontend sources) sets the `is_read` flag of the identified
document to `state`. -/
def applyReadAction (p : Post) (state : Bool) : Post :=
  { p with is_read := state }

/-- Modelled from the spec: the backend handler of `POST bookmark {id, state}`
(not part of the frontend sources) sets the `is_bookmarked` flag of the
identified document to `state`. -/
def applyBookmarkAction (p : Post) (state : Bool) : Post :=
  { p with is_bookmarked := state }

/-- `refetchPage` (utils.ts, lines 77-86): a cached page is refetched iff
filtering its `data` for posts whose `document_id` equals the acted-on id
leaves a non-empty list. -/
def refetchPage (documentId : String) (lastPage : PostPage) : Bool :=
  decide (0 < (lastPage.data.filter
    (fun post => post.document_id == documentId)).length)

/-- Modelled from the spec: the backend lookup behind `GET document?id=...`
(not part of the frontend sources) returns `{data: []}` when the id is
unknown and `{data: [document]}` otherwise; it is modelled over an abstract
store listing the ingested documents. -/
def lookupDocument (store : List Post) (documentId : String) : DocumentResult :=
  match store.find? (fun p => p.document_id == documentId) with
  | some p => { data := [p] }
  | none => { data := [] }

/-- What the success branch of `Main` (src/frontend/app/[id]/main.tsx,
lines 37-59) renders for the fetched `posts` array. -/
inductive MainView where
  | noResult
  | postView (p : Post)
deriving Repr, DecidableEq

/-- The `posts.length > 0 ? renderPost(posts[0]) ... : <NoResult />` branch of
`Main`: the first element is rendered exactly when the array is non-empty,
indexing under the length guard. -/
def renderMain (posts : List Post) : MainView :=
  if h : 0 < posts.length then MainView.postView (posts.get ⟨0, h⟩)
  else MainView.noResult

/-- The value returned by `renderPost`: one category-specific component
applied to the post, or the `null` default. -/
inductive RenderedPost where
  | arxivPost (post : Post)
  | tweetPost (post : Post)
  | webPagePost (post : Post)
  | nullRender
deriving Repr, DecidableEq

/-- `renderPost` (src/unnamed/part_001, lines 7-18): a `switch` on
`post.category` returning the matching category component, `null` on any
other tag. -/
def renderPost (post : Post) : RenderedPost :=
  match post.category with
  | "arxiv" => RenderedPost.arxivPost post
  | "tweet" => RenderedPost.tweetPost post
  | "webpage" => RenderedPost.webPagePost post
  | _ => RenderedPost.nullRender

/-- The `SearchAction` union of the search provider
(src/frontend/components/search-provider.tsx): one constructor per
`SearchParams` field plus `reset`. -/
inductive SearchAction where
  | author (value : String)
  | bookmarked (value : Bool)
  | category (value : List String)
  | desc (value : Bool)
  | text (value : String)
  | title (value : String)
  | unread (value : Bool)
  | vector_search (value : String)
  | vector_search_document (value : String)
  | reset
deriving Repr, DecidableEq

/-- `initialSearchParams` of the search provider. -/
def initialSearchParams : SearchParams :=
  { author := "", bookmarked := false, category := [], desc := true
  , text := "", title := "", unread := true, vector_search := ""
  , vector_search_document := "" }

/-- The `reducer` of the search provider (search-provider.tsx, lines 79-119).
The JS truthiness tests on `vector_search_document` / `vector_search` in the
`reset` branch are non-emptiness tests on strings; the
`searchParamsKeys.has(action.type)` guard always passes for the typed actions
embedded here, so its `throw` branch is unreachable. -/
def reducer (searchParams : SearchParams) (action : SearchAction) :
    SearchParams :=
  match action with
  | SearchAction.reset =>
    if searchParams.vector_search_document ≠ "" then
      { initialSearchParams with
          unread := false
        , vector_search_document := searchParams.vector_search_document }
    else if searchParams.vector_search ≠ "" then
      { initialSearchParams with vector_search := searchParams.vector_search }
    else initialSearchParams
  | SearchAction.vector_search_document value =>
    { searchParams with
        unread := false
      , vector_search := ""
      , vector_search_document := value }
  | SearchAction.author value => { searchParams with author := value }
  | SearchAction.bookmarked value => { searchParams with bookmarked := value }
  | SearchAction.category value => { searchParams with category := value }
  | SearchAction.desc value => { searchParams with desc := value }
  | SearchAction.text value => { searchParams with text := value }
  | SearchAction.title value => { searchParams with title := value }
  | SearchAction.unread value => { searchParams with unread := value }
  | SearchAction.vector_search value =>
    { searchParams with vector_search := value }

/-- The content of one property row rendered by the post components:
`toLocaleString(createdAt)` for the Created row, a `URLLink` for the URL row,
a `Score` gauge (with its `value` and `max`) for the Score row, or plain
text. -/
inductive PropertyContent where
  | localeTime (dateString : String)
  | urlLink (href : String)
  | scoreGauge (value : ℚ) (max : ℚ)
  | plainText (s : String)
deriving Repr, DecidableEq

/-- A property row (`Property`) as assembled by `addCommonProperties`; the
icon is presentation only and is not modelled. -/
structure Property where
  name : String
  content : PropertyContent
deriving Repr, DecidableEq

/-- `addCommonProperties` (the common-property part of the post components,
lines 21-51): prepends the Created and URL rows, appends a Score row exactly
when `score` is truthy (`score ? [...] : []`, i.e. defined and non-zero),
with `max = 1` passed to the `Score` gauge. -/
def addCommonProperties (properteis : List Property) (createdAt : String)
    (url : String) (score : Option ℚ) : List Property :=
  let commonProperteis : List Property :=
    [ { name := "Created", content := PropertyContent.localeTime createdAt }
    , { name := "URL", content := PropertyContent.urlLink url } ]
  let scoreProperties : List Property :=
    match score with
    | some s =>
      if s = 0 then []
      else [{ name := "Score", content := PropertyContent.scoreGauge s 1 }]
    | none => []
  commonProperteis ++ properteis ++ scoreProperties

/-- Modelled from the spec: the backend rescales each raw cosine similarity
(range -1..1) to 0..1 via `(similarity + 1) / 2` before returning; the hybrid
query engine is not part of the frontend sources. -/
def rescale (similarity : ℚ) : ℚ :=
  (similarity + 1) / 2

/-- A concrete document used to instantiate theorems on closed inputs. -/
def mkPost (documentId : String) : Post :=
  { category := "webpage", created_at := "2024-01-01T00:00:00Z"
  , document_id := documentId, metadata := [], score := none
  , url := "https://example.com", is_read := false, is_bookmarked := false
  , links := [], backlinks := [] }

end Fold

open Fold

theorem foldl_append_entryPairs (params : List (String × JSValue))
    (acc : List (String × String)) :
    params.foldl (fun results kv => results ++ entryPairs kv) acc
      = acc ++ params.flatMap entryPairs := by
  induction params generalizing acc with
  | nil => simp
  | cons kv rest ih => simp [List.foldl_cons, ih, List.append_assoc]

theorem toURLSearchParams_eq_flatMap (params : List (String × JSValue)) :
    toURLSearchParams params = params.flatMap entryPairs := by
  simpa using foldl_append_entryPairs params []

theorem mem_entryPairs_str (p : String × String) (k s : String) :
    p ∈ entryPairs (k, JSValue.str s) ↔ s ≠ "" ∧ p = (k, s) := by
  unfold entryPairs; split <;> simp_all

theorem mem_entryPairs_num (p : String × String) (k : String) (n : Int) :
    p ∈ entryPairs (k, JSValue.num n) ↔ n ≠ 0 ∧ p = (k, toString n) := by
  unfold entryPairs; split <;> simp_all

theorem mem_entryPairs_bool (p : String × String) (k : String) (b : Bool) :
    p ∈ entryPairs (k, JSValue.bool b) ↔ b = true ∧ p = (k, "true") := by
  unfold entryPairs; split <;> simp_all

theorem mem_entryPairs_arr (p : String × String) (k : String) (xs : List String) :
    p ∈ entryPairs (k, JSValue.arr xs) ↔ ∃ x ∈ xs, p = (k, x) := by
  unfold entryPairs; simp [eq_comm]

theorem mem_entryPairs_undef (p : String × String) (k : String) :
    p ∈ entryPairs (k, JSValue.undef) ↔ False := by
  unfold entryPairs; simp

/-- C1 (counterexample): with the search state `unread=true, desc=true` (all
other filters at their falsy defaults) and pagination `offset=0, count=2`, the
query string built by `fetchPostList` does NOT contain the pair
`offset=0`: the truthiness guard `value && results.push(...)` in
`toURLSearchParams` drops the number `0`. -/
theorem offset_zero_pair_omitted :
    ("offset", "0") ∉
      toURLSearchParams (fetchPostListParams
        { author := "", bookmarked := false, category := [], desc := true
        , text := "", title := "", unread := true, vector_search := ""
        , vector_search_document := "" } (some 0) 2) := by
  decide

/-- C1 (amended): the `GET documents` query built by the client carries one
repeated `category` key per selected category, and carries each of `author`,
`title`, `text`, `unread`, `bookmarked`, `desc`, `offset`, `count` with its
current value exactly when that value is truthy (non-empty string, `true`
boolean, defined non-zero number); falsy values — including `offset = 0` — are
omitted from the query string. -/
theorem fetchPostListQuery_truthy_params (sp : SearchParams)
    (o : Option Int) (c : Int) :
    (∀ x, ("category", x) ∈ fetchPostListQuery sp o c ↔ x ∈ sp.category) ∧
    (∀ v, ("author", v) ∈ fetchPostListQuery sp o c ↔
      sp.author ≠ "" ∧ v = sp.author) ∧
    (∀ v, ("title", v) ∈ fetchPostListQuery sp o c ↔
      sp.title ≠ "" ∧ v = sp.title) ∧
    (∀ v, ("text", v) ∈ fetchPostListQuery sp o c ↔
      sp.text ≠ "" ∧ v = sp.text) ∧
    (∀ v, ("unread", v) ∈ fetchPostListQuery sp o c ↔
      sp.unread = true ∧ v = "true") ∧
    (∀ v, ("bookmarked", v) ∈ fetchPostListQuery sp o c ↔
      sp.bookmarked = true ∧ v = "true") ∧
    (∀ v, ("desc", v) ∈ fetchPostListQuery sp o c ↔
      sp.desc = true ∧ v = "true") ∧
    (∀ v, ("offset", v) ∈ fetchPostListQuery sp o c ↔
      ∃ n, o = some n ∧ n ≠ 0 ∧ v = toString n) ∧
    (∀ v, ("count", v) ∈ fetchPostListQuery sp o c ↔
      c ≠ 0 ∧ v = toString c) := by
  refine ⟨?_, ?_, ?_, ?_, ?_, ?_, ?_, ?_, ?_⟩ <;> intro v <;>
    rw [fetchPostListQuery, toURLSearchParams_eq_flatMap] <;>
    cases o <;>
      simp [fetchPostListParams, mem_entryPairs_str, mem_entryPairs_num,
        mem_entryPairs_bool, mem_entryPairs_arr, mem_entryPairs_undef]

theorem clientPages_flatten (docs : List Post) (count : Nat) (hc : 0 < count) :
    ∀ fuel o, docs.length - Option.getD o 0 < fuel →
      (clientPages docs count fuel o).flatten = docs.drop (Option.getD o 0) := by
  intro fuel
  induction fuel with
  | zero => intro o h; omega
  | succ fuel ih =>
    intro o h
    by_cases hlt : Option.getD o 0 + count < docs.length
    · have hnext : (queryPage docs (Option.getD o 0) count).next_cursor
          = some (Option.getD o 0 + count) := by
        simp [queryPage, hlt]
      have hdata : (queryPage docs (Option.getD o 0) count).data
          = (docs.drop (Option.getD o 0)).take count := rfl
      have hih := ih (some (Option.getD o 0 + count)) (by simp; omega)
      simp only [Option.getD_some] at hih
      simp only [clientPages, hnext, hdata, List.flatten_cons, hih]
      have hdd : docs.drop (Option.getD o 0 + count)
          = (docs.drop (Option.getD o 0)).drop count :=
        (List.drop_drop count (Option.getD o 0) docs).symm
      rw [hdd, List.take_append_drop]
    · have hnext : (queryPage docs (Option.getD o 0) count).next_cursor = none := by
        simp [queryPage, hlt]
      have hlen : (docs.drop (Option.getD o 0)).length ≤ count := by
        rw [List.length_drop]; omega
      simp only [clientPages, hnext]
      simp [queryPage, List.take_of_length_le hlen]

/-- C3: for a fixed filter and ranking configuration (modelled as the fixed
ordered candidate list `docs`), the `PostList` pagination loop requests the
first page with an undefined offset, each subsequent page with the previous
response's `next_cursor`, stops exactly when a response carries no
`next_cursor`, and the concatenation of the pages' `data` arrays is exactly
`docs`: every matching document once, in the declared order.  `fuel` is any
bound exceeding the number of documents; `count` is the positive page size. -/
theorem clientPagination_exhaustive (docs : List Post) (count fuel : Nat)
    (hc : 0 < count) (hf : docs.length < fuel) :
    clientAllPosts docs count fuel = docs := by
  have := clientPages_flatten docs count hc fuel none (by simpa using hf)
  simpa [clientAllPosts] using this

/-- C3 (witness): three documents paged two at a time are enumerated exactly
once, in order. -/
theorem clientPagination_exhaustive_witness :
    0 < 2 ∧ ([mkPost "a", mkPost "b", mkPost "c"] : List Post).length < 4 ∧
      clientAllPosts [mkPost "a", mkPost "b", mkPost "c"] 2 4 =
        [mkPost "a", mkPost "b", mkPost "c"] :=
  ⟨by decide, by decide,
    clientPagination_exhaustive _ 2 4 (by decide) (by decide)⟩

theorem handleResult_not_ok {α : Type} (r : Response α) (h : r.ok = false) :
    rethrow (handleResponse r) = Except.error (errorMessage r.status r.body) := by
  simp [handleResponse, rethrow, h]

theorem handleResult_ok {α : Type} (r : Response α) (h : r.ok = true) :
    rethrow (handleResponse r) = Except.ok r.value := by
  simp [handleResponse, rethrow, h]

theorem errorMessage_has_status (status : Nat) (body : String) :
    (toString status).data <:+: (errorMessage status body).data :=
  ⟨("HTTP error: Status: ").data, (", Message: " ++ body).data, by
    simp [errorMessage, String.data_append, List.append_assoc]⟩

theorem errorMessage_has_body (status : Nat) (body : String) :
    body.data <:+: (errorMessage status body).data :=
  ⟨("HTTP error: Status: " ++ toString status ++ ", Message: ").data, [], by
    simp [errorMessage, String.data_append, List.append_assoc]⟩

/-- C4: each query-path helper (`fetchPostList`, `fetchPost`,
`requestAction`) rejects with the error built from the status code and the
response body whenever the response is not ok, resolves with the full parsed
value whenever it is ok (never a partial result), the error message contains
both the status code and the body as substrings, and the shared `catch` block
re-throws an error unchanged rather than swallowing it. -/
theorem queryPathErrors (r1 : Response PostPage) (r2 : Response DocumentResult)
    (r3 : Response ActionResult) :
    (r1.ok = false →
      fetchPostList_result r1 = Except.error (errorMessage r1.status r1.body)) ∧
    (r1.ok = true → fetchPostList_result r1 = Except.ok r1.value) ∧
    (r2.ok = false →
      fetchPost_result r2 = Except.error (errorMessage r2.status r2.body)) ∧
    (r2.ok = true → fetchPost_result r2 = Except.ok r2.value) ∧
    (r3.ok = false →
      requestAction_result r3 = Except.error (errorMessage r3.status r3.body)) ∧
    (r3.ok = true → requestAction_result r3 = Except.ok r3.value) ∧
    (∀ (st : Nat) (bd : String),
      (toString st).data <:+: (errorMessage st bd).data ∧
      bd.data <:+: (errorMessage st bd).data) ∧
    (∀ e : String,
      rethrow (Except.error e : Except String PostPage) = Except.error e) :=
  ⟨fun h => handleResult_not_ok r1 h, fun h => handleResult_ok r1 h,
   fun h => handleResult_not_ok r2 h, fun h => handleResult_ok r2 h,
   fun h => handleResult_not_ok r3 h, fun h => handleResult_ok r3 h,
   fun st bd => ⟨errorMessage_has_status st bd, errorMessage_has_body st bd⟩,
   fun _ => rfl⟩

/-- C4 (witness): a 404 response with body `missing` makes `fetchPostList`
reject with the composed error message. -/
theorem queryPathErrors_witness :
    fetchPostList_result
        { ok := false, status := 404, body := "missing"
        , value := { data := [], next_cursor := none } } =
      Except.error (errorMessage 404 "missing") :=
  (queryPathErrors
    { ok := false, status := 404, body := "missing"
    , value := { data := [], next_cursor := none } }
    { ok := true, status := 200, body := "", value := { data := [] } }
    { ok := true, status := 200, body := "", value := { success := true } }).1
    rfl

/-- C5: clicking the read (resp. bookmark) action for a displayed document
issues a `POST` to the read (resp. bookmark) endpoint with JSON body
`{id, state}` where `state` is the boolean negation of the currently displayed
flag; the response parses to the `{success: boolean}` shape; and applying the
requested state on the document flips exactly the corresponding flag, leaving
the other flag and the identity unchanged. -/
theorem actionButtons_toggle (origin : String) (p : Post)
    (r : Response ActionResult) :
    (readClickRequest origin p.document_id p.is_read).method = "POST" ∧
    (readClickRequest origin p.document_id p.is_read).url
      = origin ++ "/api/read" ∧
    (readClickRequest origin p.document_id p.is_read).body
      = [("id", JSValue.str p.document_id)
        , ("state", JSValue.bool (!p.is_read))] ∧
    (bookmarkClickRequest origin p.document_id p.is_bookmarked).method
      = "POST" ∧
    (bookmarkClickRequest origin p.document_id p.is_bookmarked).url
      = origin ++ "/api/bookmark" ∧
    (bookmarkClickRequest origin p.document_id p.is_bookmarked).body
      = [("id", JSValue.str p.document_id)
        , ("state", JSValue.bool (!p.is_bookmarked))] ∧
    (r.ok = true →
      requestAction_result r = Except.ok { success := r.value.success }) ∧
    (applyReadAction p (!p.is_read)).is_read = !p.is_read ∧
    (applyReadAction p (!p.is_read)).is_bookmarked = p.is_bookmarked ∧
    (applyReadAction p (!p.is_read)).document_id = p.document_id ∧
    (applyBookmarkAction p (!p.is_bookmarked)).is_bookmarked
      = !p.is_bookmarked ∧
    (applyBookmarkAction p (!p.is_bookmarked)).is_read = p.is_read ∧
    (applyBookmarkAction p (!p.is_bookmarked)).document_id = p.document_id :=
  ⟨rfl, rfl, rfl, rfl, rfl, rfl,
   fun h => handleResult_ok r h,
   rfl, rfl, rfl, rfl, rfl, rfl⟩

/-- C5 (witness): an ok action response parses to the success shape. -/
theorem actionButtons_toggle_witness :
    requestAction_result
        { ok := true, status := 200, body := "", value := { success := true } }
      = Except.ok { success := true } :=
  (actionButtons_toggle "" (mkPost "a")
    { ok := true, status := 200, body := ""
    , value := { success := true } }).2.2.2.2.2.2.1 rfl

/-- C6: confirming deletion issues a `DELETE` to the document endpoint with
JSON body `{id}`, and `refetchPage` selects a cached page exactly when some
post of its `data` has the deleted `document_id`. -/
theorem deleteButton_refetch (origin documentId : String) (page : PostPage) :
    deleteClickRequest origin documentId
      = { url := origin ++ "/api/document", method := "DELETE"
        , body := [("id", JSValue.str documentId)] } ∧
    (refetchPage documentId page = true ↔
      ∃ p ∈ page.data, p.document_id = documentId) := by
  constructor
  · rfl
  · simp [refetchPage, List.length_pos_iff_exists_mem, List.mem_filter]

/-- C6 (witness): a page containing the deleted id is selected for refetch. -/
theorem deleteButton_refetch_witness :
    refetchPage "a" { data := [mkPost "a"], next_cursor := none } = true :=
  (deleteButton_refetch "" "a"
      { data := [mkPost "a"], next_cursor := none }).2.mpr
    ⟨mkPost "a", by simp, rfl⟩

/-- C7: the single-document lookup returns at most one element — empty exactly
when the id is unknown, a one-element array when some stored document has the
id — any returned element is the stored document with that id, and `Main`
renders the first element when the array is non-empty and the no-result view
when it is empty, indexing only under the length guard. -/
theorem lookupDocument_render (store : List Post) (documentId : String) :
    (lookupDocument store documentId).data.length ≤ 1 ∧
    ((∀ p ∈ store, p.document_id ≠ documentId) →
      (lookupDocument store documentId).data = []) ∧
    (∀ p, (lookupDocument store documentId).data = [p] →
      p ∈ store ∧ p.document_id = documentId) ∧
    (renderMain (lookupDocument store documentId).data = MainView.noResult ↔
      (lookupDocument store documentId).data = []) ∧
    (∀ p, (lookupDocument store documentId).data = [p] →
      renderMain (lookupDocument store documentId).data
        = MainView.postView p) ∧
    ((∃ q ∈ store, q.document_id = documentId) →
      ∃ p, (lookupDocument store documentId).data = [p] ∧
        renderMain (lookupDocument store documentId).data
          = MainView.postView p) := by
  cases hfind : store.find? (fun p => p.document_id == documentId) with
  | none =>
    have hnone : ∀ x ∈ store, ¬x.document_id = documentId := by
      intro x hx
      have := List.find?_eq_none.mp hfind x hx
      simpa using this
    refine ⟨?_, ?_, ?_, ?_, ?_, ?_⟩ <;>
      simp [lookupDocument, hfind, renderMain]
    exact hnone
  | some q =>
    have hq : q ∈ store := List.mem_of_find?_eq_some hfind
    have hqid : q.document_id = documentId := by
      have := List.find?_some hfind
      simpa using this
    refine ⟨?_, ?_, ?_, ?_, ?_, ?_⟩
    · simp [lookupDocument, hfind]
    · intro hall
      exact absurd hqid (hall q hq)
    · intro p hp
      simp [lookupDocument, hfind] at hp
      subst hp
      exact ⟨hq, hqid⟩
    · simp [lookupDocument, hfind, renderMain]
    · intro p hp
      simp [lookupDocument, hfind] at hp
      subst hp
      simp [lookupDocument, hfind, renderMain]
    · intro _
      exact ⟨q, by simp [lookupDocument, hfind],
        by simp [lookupDocument, hfind, renderMain]⟩

/-- C7 (witness): a store containing the looked-up id yields a one-element
array rendered as that document's post view. -/
theorem lookupDocument_render_witness :
    ∃ p, (lookupDocument [mkPost "a"] "a").data = [p] ∧
      renderMain (lookupDocument [mkPost "a"] "a").data
        = MainView.postView p :=
  (lookupDocument_render [mkPost "a"] "a").2.2.2.2.2
    ⟨mkPost "a", by simp, rfl⟩

/-- C8: `renderPost` is a total, exhaustive match on the category tag: each of
`arxiv`, `tweet`, `webpage` yields the corresponding category component
applied to the post, and any other tag yields the `null` default rather than
an error. -/
theorem renderPost_exhaustive (post : Post) :
    (post.category = "arxiv" → renderPost post = RenderedPost.arxivPost post) ∧
    (post.category = "tweet" → renderPost post = RenderedPost.tweetPost post) ∧
    (post.category = "webpage" →
      renderPost post = RenderedPost.webPagePost post) ∧
    (post.category ≠ "arxiv" → post.category ≠ "tweet" →
      post.category ≠ "webpage" →
      renderPost post = RenderedPost.nullRender) :=
  ⟨fun h => by simp [renderPost, h], fun h => by simp [renderPost, h],
   fun h => by simp [renderPost, h],
   fun h1 h2 h3 => by unfold renderPost; split <;> simp_all⟩

/-- C8 (witness): an unknown tag renders the `null` default. -/
theorem renderPost_exhaustive_witness :
    renderPost { mkPost "a" with category := "unknown" }
      = RenderedPost.nullRender :=
  (renderPost_exhaustive { mkPost "a" with category := "unknown" }).2.2.2
    (by decide) (by decide) (by decide)

/-- C9: dispatching `{type: "vector_search_document", value: v}` produces a
state whose `vector_search_document` is `v`, whose `vector_search` is the
empty string, whose `unread` is `false`, and in which every other field is
unchanged. -/
theorem reducer_vector_search_document (s : SearchParams) (v : String) :
    (reducer s (SearchAction.vector_search_document v)).vector_search_document
      = v ∧
    (reducer s (SearchAction.vector_search_document v)).vector_search = "" ∧
    (reducer s (SearchAction.vector_search_document v)).unread = false ∧
    (reducer s (SearchAction.vector_search_document v)).author = s.author ∧
    (reducer s (SearchAction.vector_search_document v)).bookmarked
      = s.bookmarked ∧
    (reducer s (SearchAction.vector_search_document v)).category = s.category ∧
    (reducer s (SearchAction.vector_search_document v)).desc = s.desc ∧
    (reducer s (SearchAction.vector_search_document v)).text = s.text ∧
    (reducer s (SearchAction.vector_search_document v)).title = s.title :=
  ⟨rfl, rfl, rfl, rfl, rfl, rfl, rfl, rfl, rfl⟩

/-- C9 (witness): dispatching on the initial state clears `unread`. -/
theorem reducer_vector_search_document_witness :
    (reducer initialSearchParams
        (SearchAction.vector_search_document "doc")).unread = false :=
  (reducer_vector_search_document initialSearchParams "doc").2.2.1

/-- C10: `addCommonProperties` appends a Score row exactly when its `score`
argument is defined and non-zero (so a score of exactly `0` renders no score
row), and a present Score row carries the score value with `max = 1`. -/
theorem addCommonProperties_score_row (properteis : List Property)
    (createdAt url : String) (score : Option ℚ)
    (h : ∀ pr ∈ properteis, pr.name ≠ "Score") :
    ((∃ pr ∈ addCommonProperties properteis createdAt url score,
        pr.name = "Score") ↔ ∃ s, score = some s ∧ s ≠ 0) ∧
    (∀ pr ∈ addCommonProperties properteis createdAt url score,
        pr.name = "Score" →
        ∃ s, score = some s ∧ s ≠ 0 ∧
          pr.content = PropertyContent.scoreGauge s 1) ∧
    (addCommonProperties properteis createdAt url (some 0) =
      [ { name := "Created", content := PropertyContent.localeTime createdAt }
      , { name := "URL", content := PropertyContent.urlLink url } ]
        ++ properteis) ∧
    (addCommonProperties properteis createdAt url none =
      [ { name := "Created", content := PropertyContent.localeTime createdAt }
      , { name := "URL", content := PropertyContent.urlLink url } ]
        ++ properteis) := by
  refine ⟨?_, ?_, ?_, ?_⟩
  · rcases score with _ | s
    · simp [addCommonProperties]
      intro pr hpr
      exact h pr hpr
    · by_cases hs : s = 0
      · subst hs
        simp [addCommonProperties]
        intro pr hpr
        exact h pr hpr
      · simp [addCommonProperties, hs]
        exact ⟨{ name := "Score", content := PropertyContent.scoreGauge s 1 },
          Or.inr rfl, rfl⟩
  · intro pr hpr hname
    rcases score with _ | s
    · simp [addCommonProperties] at hpr
      rcases hpr with hpr | hpr | hpr
      · subst hpr; simp at hname
      · subst hpr; simp at hname
      · exact absurd hname (h pr hpr)
    · by_cases hs : s = 0
      · subst hs
        simp [addCommonProperties] at hpr
        rcases hpr with hpr | hpr | hpr
        · subst hpr; simp at hname
        · subst hpr; simp at hname
        · exact absurd hname (h pr hpr)
      · simp [addCommonProperties, hs] at hpr
        rcases hpr with hpr | hpr | hpr | hpr
        · subst hpr; simp at hname
        · subst hpr; simp at hname
        · exact absurd hname (h pr hpr)
        · subst hpr; exact ⟨s, rfl, hs, rfl⟩
  · simp [addCommonProperties]
  · simp [addCommonProperties]

/-- C10 (witness): a score of exactly `0` renders no Score row. -/
theorem addCommonProperties_score_row_witness :
    addCommonProperties [] "2024-01-01T00:00:00Z" "https://example.com"
        (some 0) =
      [ { name := "Created"
        , content := PropertyContent.localeTime "2024-01-01T00:00:00Z" }
      , { name := "URL"
        , content := PropertyContent.urlLink "https://example.com" } ]
        ++ [] :=
  (addCommonProperties_score_row [] "2024-01-01T00:00:00Z"
    "https://example.com" (some 0) (by simp)).2.2.1

/-- C2: the cosine-similarity rescaling `s ↦ (s + 1) / 2` is strictly
monotone, maps `[-1, 1]` into `[0, 1]`, and attains every value of `[0, 1]`
from some similarity in `[-1, 1]`, so returned scores lie exactly in
`[0, 1]`. -/
theorem rescale_monotone_onto :
    (∀ s1 s2 : ℚ, s2 < s1 → rescale s2 < rescale s1) ∧
    (∀ s : ℚ, -1 ≤ s → s ≤ 1 → 0 ≤ rescale s ∧ rescale s ≤ 1) ∧
    (∀ r : ℚ, 0 ≤ r → r ≤ 1 →
      ∃ s : ℚ, -1 ≤ s ∧ s ≤ 1 ∧ rescale s = r) := by
  refine ⟨?_, ?_, ?_⟩
  · intro s1 s2 hlt
    unfold rescale
    linarith
  · intro s h1 h2
    unfold rescale
    constructor <;> linarith
  · intro r h1 h2
    refine ⟨2 * r - 1, by linarith, by linarith, ?_⟩
    unfold rescale
    ring

/-- C2 (witness): the rescaling is strictly increasing at `0 < 1`. -/
theorem rescale_monotone_onto_witness :
    rescale 0 < rescale 1 :=
  rescale_monotone_onto.1 1 0 (by norm_num)

/-- C1 (witness): a truthy `count = 2` is carried in the query string. -/
theorem fetchPostListQuery_truthy_params_witness :
    ("count", "2") ∈ fetchPostListQuery initialSearchParams (some 0) 2 :=
  ((fetchPostListQuery_truthy_params initialSearchParams
      (some 0) 2).2.2.2.2.2.2.2.2 "2").mpr ⟨by decide, by decide⟩
